import Mathlib

/-!
Verification of the Zubax ChibiOS bootloader controller (`bootloader.hpp`).

The header defines the `State` enum, the packed `AppInfo` / `AppDescriptor`
records with the inline validity predicate `AppDescriptor::isValid`, and the
collaborator interfaces (`IAppStorageBackend`, `IDownloader`,
`IDownloadStreamSink`).  The bodies of the `Bootloader` member functions are
declared in the header but implemented elsewhere; those operations are
modelled here from the specification, and each such definition is marked
`Modelled from the spec:` in its doc comment.

Machine integers are modelled as `Nat` (all the fields involved are unsigned);
signed return codes of the collaborator interfaces are modelled as `Int`.
-/

namespace bootloader

/-- The bootloader states, from `enum class State` in the header. -/
inductive State where
  | NoAppToBoot
  | BootDelay
  | BootCancelled
  | AppUpgradeInProgress
  | ReadyToBoot
deriving DecidableEq, Repr

/-- Embeds `struct __attribute__((packed)) AppInfo`: `image_crc : u64`,
`image_size : u32`, `vcs_commit : u32`, `major_version : u8`,
`minor_version : u8` (in declaration order). -/
structure AppInfo where
  image_crc : Nat
  image_size : Nat
  vcs_commit : Nat
  major_version : Nat
  minor_version : Nat
deriving DecidableEq, Repr

/-- Embeds `struct __attribute__((packed)) AppDescriptor`: an 8-byte signature,
the embedded `AppInfo`, and 6 reserved bytes.  The byte arrays are modelled
as `List Nat`; the C++ types fix their lengths to 8 and 6, which appears as
a hypothesis where it matters. -/
structure AppDescriptor where
  signature : List Nat
  app_info : AppInfo
  reserved : List Nat
deriving DecidableEq, Repr

/-- Embeds `AppDescriptor::getSignatureValue()`: the bytes of the ASCII string
`"APDesc00"`, i.e. `{'A','P','D','e','s','c','0','0'}`. -/
def getSignatureValue : List Nat :=
  [65, 80, 68, 101, 115, 99, 48, 48]

/-- Embeds `AppDescriptor::isValid()`: the signature bytes equal
`getSignatureValue()`, and `app_info.image_size > 0`, and
`app_info.image_size < 0xFFFFFFFF`. -/
def AppDescriptor.isValid (d : AppDescriptor) : Bool :=
  d.signature == getSignatureValue &&
    decide (d.app_info.image_size > 0) &&
    decide (d.app_info.image_size < 0xFFFFFFFF)

/-- The all-zero descriptor (erased-to-zero storage). -/
def zeroDescriptor : AppDescriptor :=
  { signature := [0, 0, 0, 0, 0, 0, 0, 0]
    app_info := { image_crc := 0, image_size := 0, vcs_commit := 0
                  major_version := 0, minor_version := 0 }
    reserved := [0, 0, 0, 0, 0, 0] }

/-- The all-ones descriptor (erased flash, every byte `0xFF`). -/
def onesDescriptor : AppDescriptor :=
  { signature := [255, 255, 255, 255, 255, 255, 255, 255]
    app_info := { image_crc := 0xFFFFFFFFFFFFFFFF, image_size := 0xFFFFFFFF
                  vcs_commit := 0xFFFFFFFF, major_version := 255
                  minor_version := 255 }
    reserved := [255, 255, 255, 255, 255, 255] }

/-- C2: `isValid()` holds iff the 8 signature bytes equal the magic
value `"APDesc00"` and `image_size` lies strictly between `0` and
`0xFFFFFFFF`; in particular it is false for the all-zero descriptor and
for the all-ones descriptor. -/
theorem isValid_iff_signature_and_size :
    (∀ d : AppDescriptor,
      d.isValid = true ↔
        (d.signature = getSignatureValue ∧
          0 < d.app_info.image_size ∧ d.app_info.image_size < 0xFFFFFFFF)) ∧
    zeroDescriptor.isValid = false ∧ onesDescriptor.isValid = false := by
  refine ⟨fun d => ?_, by decide, by decide⟩
  simp [AppDescriptor.isValid, and_assoc]

/-- C10: `isValid()` reads only the signature bytes and
`app_info.image_size`: two descriptors agreeing on those two fields get the
same verdict, whatever their `image_crc`, `vcs_commit`, version bytes or
reserved bytes are. -/
theorem isValid_depends_only_on_signature_and_size
    (d₁ d₂ : AppDescriptor)
    (hsig : d₁.signature = d₂.signature)
    (hsize : d₁.app_info.image_size = d₂.app_info.image_size) :
    d₁.isValid = d₂.isValid := by
  simp [AppDescriptor.isValid, hsig, hsize]

/-- Witness for C10: two concrete descriptors sharing signature and size but
differing in every other field validate identically. -/
theorem isValid_depends_only_on_signature_and_size_witness :
    ({ signature := getSignatureValue
       app_info := { image_crc := 0, image_size := 1024, vcs_commit := 0
                     major_version := 0, minor_version := 0 }
       reserved := [0, 0, 0, 0, 0, 0] } : AppDescriptor).isValid =
    ({ signature := getSignatureValue
       app_info := { image_crc := 77, image_size := 1024, vcs_commit := 99
                     major_version := 3, minor_version := 4 }
       reserved := [1, 2, 3, 4, 5, 6] } : AppDescriptor).isValid :=
  isValid_depends_only_on_signature_and_size _ _ rfl rfl

/-- Little-endian byte encoding of a `w`-byte unsigned integer, used to
embed the packed in-memory layout of the descriptor (the platform is
little-endian and both structs carry `__attribute__((packed))`). -/
def leBytes : Nat → Nat → List Nat
  | 0, _ => []
  | w + 1, v => v % 256 :: leBytes w (v / 256)

theorem leBytes_length (w v : Nat) : (leBytes w v).length = w := by
  induction w generalizing v with
  | zero => rfl
  | succ w ih => simp [leBytes, ih]

/-- The packed byte image of `AppInfo`: its fields in declaration order,
each in its declared width, with no padding. -/
def AppInfo.toBytes (a : AppInfo) : List Nat :=
  leBytes 8 a.image_crc ++ leBytes 4 a.image_size ++ leBytes 4 a.vcs_commit ++
    leBytes 1 a.major_version ++ leBytes 1 a.minor_version

/-- The packed byte image of `AppDescriptor`: the 8 signature bytes, the
embedded `AppInfo`, then the 6 reserved bytes, with no padding
(`static_assert(sizeof(AppDescriptor) == 32)` in the header). -/
def AppDescriptor.toBytes (d : AppDescriptor) : List Nat :=
  d.signature ++ d.app_info.toBytes ++ d.reserved

/-- C9: The on-storage descriptor is exactly 32 bytes with the fields
at the claimed offsets: signature at 0 (8 bytes), `image_crc` at 8
(8 bytes), `image_size` at 16 (4 bytes), `vcs_commit` at 20 (4 bytes),
`major_version` at 24, `minor_version` at 25, reserved at 26 (6 bytes). -/
theorem appDescriptor_layout (d : AppDescriptor)
    (hsig : d.signature.length = 8) (hres : d.reserved.length = 6) :
    d.toBytes.length = 32 ∧
    d.toBytes.take 8 = d.signature ∧
    (d.toBytes.drop 8).take 8 = leBytes 8 d.app_info.image_crc ∧
    (d.toBytes.drop 16).take 4 = leBytes 4 d.app_info.image_size ∧
    (d.toBytes.drop 20).take 4 = leBytes 4 d.app_info.vcs_commit ∧
    (d.toBytes.drop 24).take 1 = leBytes 1 d.app_info.major_version ∧
    (d.toBytes.drop 25).take 1 = leBytes 1 d.app_info.minor_version ∧
    d.toBytes.drop 26 = d.reserved := by
  have hflat : d.toBytes =
      d.signature ++ (leBytes 8 d.app_info.image_crc ++
        (leBytes 4 d.app_info.image_size ++ (leBytes 4 d.app_info.vcs_commit ++
          (leBytes 1 d.app_info.major_version ++
            (leBytes 1 d.app_info.minor_version ++ d.reserved))))) := by
    simp [AppDescriptor.toBytes, AppInfo.toBytes, List.append_assoc]
  have d8 : d.toBytes.drop 8 =
      leBytes 8 d.app_info.image_crc ++
        (leBytes 4 d.app_info.image_size ++ (leBytes 4 d.app_info.vcs_commit ++
          (leBytes 1 d.app_info.major_version ++
            (leBytes 1 d.app_info.minor_version ++ d.reserved)))) := by
    rw [hflat]; exact List.drop_left' hsig
  have d16 : d.toBytes.drop 16 =
      leBytes 4 d.app_info.image_size ++ (leBytes 4 d.app_info.vcs_commit ++
        (leBytes 1 d.app_info.major_version ++
          (leBytes 1 d.app_info.minor_version ++ d.reserved))) := by
    have : d.toBytes.drop 16 = (d.toBytes.drop 8).drop 8 := by
      rw [List.drop_drop]
    rw [this, d8]; exact List.drop_left' (leBytes_length 8 _)
  have d20 : d.toBytes.drop 20 =
      leBytes 4 d.app_info.vcs_commit ++
        (leBytes 1 d.app_info.major_version ++
          (leBytes 1 d.app_info.minor_version ++ d.reserved)) := by
    have : d.toBytes.drop 20 = (d.toBytes.drop 16).drop 4 := by
      rw [List.drop_drop]
    rw [this, d16]; exact List.drop_left' (leBytes_length 4 _)
  have d24 : d.toBytes.drop 24 =
      leBytes 1 d.app_info.major_version ++
        (leBytes 1 d.app_info.minor_version ++ d.reserved) := by
    have : d.toBytes.drop 24 = (d.toBytes.drop 20).drop 4 := by
      rw [List.drop_drop]
    rw [this, d20]; exact List.drop_left' (leBytes_length 4 _)
  have d25 : d.toBytes.drop 25 =
      leBytes 1 d.app_info.minor_version ++ d.reserved := by
    have : d.toBytes.drop 25 = (d.toBytes.drop 24).drop 1 := by
      rw [List.drop_drop]
    rw [this, d24]; exact List.drop_left' (leBytes_length 1 _)
  have d26 : d.toBytes.drop 26 = d.reserved := by
    have : d.toBytes.drop 26 = (d.toBytes.drop 25).drop 1 := by
      rw [List.drop_drop]
    rw [this, d25]; exact List.drop_left' (leBytes_length 1 _)
  refine ⟨?_, ?_, ?_, ?_, ?_, ?_, ?_, d26⟩
  · rw [hflat]
    simp [hsig, hres, leBytes_length]
  · rw [hflat]; exact List.take_left' hsig
  · rw [d8]; exact List.take_left' (leBytes_length 8 _)
  · rw [d16]; exact List.take_left' (leBytes_length 4 _)
  · rw [d20]; exact List.take_left' (leBytes_length 4 _)
  · rw [d24]; exact List.take_left' (leBytes_length 1 _)
  · rw [d25]; exact List.take_left' (leBytes_length 1 _)

/-- Witness for C9 at the all-zero descriptor. -/
theorem appDescriptor_layout_witness :
    zeroDescriptor.toBytes.length = 32 ∧
    zeroDescriptor.toBytes.take 8 = zeroDescriptor.signature ∧
    (zeroDescriptor.toBytes.drop 8).take 8 =
      leBytes 8 zeroDescriptor.app_info.image_crc ∧
    (zeroDescriptor.toBytes.drop 16).take 4 =
      leBytes 4 zeroDescriptor.app_info.image_size ∧
    (zeroDescriptor.toBytes.drop 20).take 4 =
      leBytes 4 zeroDescriptor.app_info.vcs_commit ∧
    (zeroDescriptor.toBytes.drop 24).take 1 =
      leBytes 1 zeroDescriptor.app_info.major_version ∧
    (zeroDescriptor.toBytes.drop 25).take 1 =
      leBytes 1 zeroDescriptor.app_info.minor_version ∧
    zeroDescriptor.toBytes.drop 26 = zeroDescriptor.reserved :=
  appDescriptor_layout zeroDescriptor rfl rfl

/-- Modelled from the spec: the application region of the storage backend as
seen by descriptor validation (`locateAppDescriptor` is not in the header).
`descriptor` is the located descriptor candidate (`none` when nothing
structurally readable was found) and `imageBytes` is the image region whose
checksum is recomputed. -/
structure StorageImage where
  descriptor : Option AppDescriptor
  imageBytes : List Nat

/-- Modelled from the spec: the outcome of descriptor validation
(§4.1) — the located descriptor must satisfy `isValid()` and its
`image_crc` must equal the checksum recomputed over exactly `image_size`
bytes of the image region.  The concrete CRC-64 algorithm is an external
contract, so it is a parameter `crc`. -/
def descriptorValidates (crc : List Nat → Nat) (s : StorageImage) : Bool :=
  match s.descriptor with
  | none => false
  | some d =>
      d.isValid && (crc (s.imageBytes.take d.app_info.image_size) ==
        d.app_info.image_crc)

/-- The mutable fields of `class Bootloader` relevant to the claims:
`state_`, `boot_delay_msec_`, `boot_delay_started_at_st_` (the mutex and the
backend reference are modelled outside the record). -/
structure Bootloader where
  state : State
  boot_delay_msec : Nat
  boot_delay_started_at_st : Nat
deriving DecidableEq, Repr

/-- Embeds `Bootloader::DefaultBootDelayMSec` from the header. -/
def DefaultBootDelayMSec : Nat := 3000

/-- Modelled from the spec: `Bootloader::verifyAppAndUpdateState` (body not
in the header) — re-run descriptor validation; valid → `BootDelay` with the
delay timer (re)started at the current time, invalid → `NoAppToBoot`. -/
def verifyAppAndUpdateState (crc : List Nat → Nat) (s : StorageImage)
    (now : Nat) (b : Bootloader) : Bootloader :=
  if descriptorValidates crc s then
    { b with state := State.BootDelay, boot_delay_started_at_st := now }
  else
    { b with state := State.NoAppToBoot }

/-- Modelled from the spec: the `Bootloader` constructor (body not in the
header) — record the delay, start measuring time from construction, and run
descriptor validation to pick the initial state. -/
def Bootloader.construct (crc : List Nat → Nat) (s : StorageImage)
    (boot_delay_msec : Nat) (now : Nat) : Bootloader :=
  verifyAppAndUpdateState crc s now
    { state := State.NoAppToBoot
      boot_delay_msec := boot_delay_msec
      boot_delay_started_at_st := now }

/-- Modelled from the spec: `Bootloader::getState` (body not in the
header) — a side-effecting read: if the state is `BootDelay` and the
configured delay has elapsed since the stored start timestamp (monotonic
time), transition to `ReadyToBoot` before returning. -/
def Bootloader.getState (b : Bootloader) (now : Nat) : State × Bootloader :=
  if b.state = State.BootDelay ∧
      b.boot_delay_msec ≤ now - b.boot_delay_started_at_st then
    (State.ReadyToBoot, { b with state := State.ReadyToBoot })
  else
    (b.state, b)

/-- Modelled from the spec: `Bootloader::cancelBoot` (body not in the
header) — switch to `BootCancelled` iff currently in `BootDelay`; a no-op
from every other state. -/
def Bootloader.cancelBoot (b : Bootloader) : Bootloader :=
  if b.state = State.BootDelay then
    { b with state := State.BootCancelled }
  else
    b

/-- Modelled from the spec: `Bootloader::requestBoot` (body not in the
header) — switch to `ReadyToBoot` from `BootDelay` or `BootCancelled`
(states that imply a valid application is present); a no-op from
`AppUpgradeInProgress` and `NoAppToBoot`. -/
def Bootloader.requestBoot (b : Bootloader) : Bootloader :=
  if b.state = State.BootDelay ∨ b.state = State.BootCancelled then
    { b with state := State.ReadyToBoot }
  else
    b

/-- Modelled from the spec: the behaviour of an `IAppStorageBackend` during
one upgrade attempt.  `writeRes offset data` is the return value of
`write(offset, data, size)` (bytes written, or negative); `storageAfter s`
is the application region left behind after `endUpgrade(s)`, against which
the descriptor is re-validated. -/
structure UpgradeBackend where
  beginUpgradeRes : Int
  writeRes : Nat → List Nat → Int
  endUpgradeRes : Bool → Int
  storageAfter : Bool → StorageImage

/-- Modelled from the spec: the sink adapter of `upgradeApp` (§4.4 step 3)
driven over the downloader's chunk sequence — each chunk is forwarded to
`backend.write` at the running offset, the offset advances by the bytes
actually written, and the transfer aborts (result `false`) as soon as a
write returns fewer bytes than requested or a negative value.  Returns
`true` iff every chunk was written in full. -/
def writeChunks (be : UpgradeBackend) : Nat → List (List Nat) → Bool
  | _, [] => true
  | offset, c :: rest =>
      if be.writeRes offset c < (c.length : Int) then
        false
      else
        writeChunks be (offset + (be.writeRes offset c).toNat) rest

/-- Modelled from the spec: the value `download(sink)` returns — the
downloader's own result `downloaderRes` when the transfer ran to
completion, and a negative value when the sink aborted it. -/
def downloadResult (be : UpgradeBackend) (chunks : List (List Nat))
    (downloaderRes : Int) : Int :=
  if writeChunks be 0 chunks then downloaderRes else -1

/-- Modelled from the spec: the `success` flag passed to `endUpgrade` —
every chunk was written in full and the downloader itself reported
success (0). -/
def upgradeSuccess (be : UpgradeBackend) (chunks : List (List Nat))
    (downloaderRes : Int) : Bool :=
  writeChunks be 0 chunks && (downloadResult be chunks downloaderRes == 0)

theorem upgradeSuccess_eq (be : UpgradeBackend) (chunks : List (List Nat))
    (downloaderRes : Int) :
    upgradeSuccess be chunks downloaderRes =
      (writeChunks be 0 chunks && (downloaderRes == 0)) := by
  unfold upgradeSuccess downloadResult
  by_cases h : writeChunks be 0 chunks = true <;> simp [h]

/-- Modelled from the spec: `Bootloader::upgradeApp` (body not in the
header), §4.4.  A call while already `AppUpgradeInProgress` is rejected.
Otherwise: enter `AppUpgradeInProgress`; `beginUpgrade()` (negative →
abort as failure without invoking the downloader); run the download through
the sink adapter; `endUpgrade(success)` with `success` = every chunk
written in full and the downloader returned 0 (`downloaderRes`); re-validate
the descriptor against the finalized storage; success with a now-valid
descriptor → `BootDelay` with the delay timer restarted, anything else →
`NoAppToBoot`.  Returns 0 iff the download completed with 0, every write
was full, `endUpgrade` was non-negative, and the descriptor re-validated. -/
def Bootloader.upgradeApp (crc : List Nat → Nat) (be : UpgradeBackend)
    (chunks : List (List Nat)) (downloaderRes : Int) (now : Nat)
    (b : Bootloader) : Int × Bootloader :=
  if b.state = State.AppUpgradeInProgress then
    (-1, b)
  else if be.beginUpgradeRes < 0 then
    (be.beginUpgradeRes, { b with state := State.NoAppToBoot })
  else
    let success := upgradeSuccess be chunks downloaderRes
    let endRes := be.endUpgradeRes success
    let valid := descriptorValidates crc (be.storageAfter success)
    (if success then
       if endRes < 0 then endRes else if valid then 0 else -1
     else -1,
     if success && valid then
       { b with state := State.BootDelay, boot_delay_started_at_st := now }
     else
       { b with state := State.NoAppToBoot })

/-- A trivial checksum function used as a concrete CRC instance in the
witnesses (the algorithm itself is an external contract). -/
def crc0 : List Nat → Nat := fun _ => 0

/-- A descriptor that satisfies `isValid()` and whose `image_crc` matches
`crc0` of an empty image region. -/
def validDescriptor : AppDescriptor :=
  { signature := getSignatureValue
    app_info := { image_crc := 0, image_size := 1024, vcs_commit := 0
                  major_version := 1, minor_version := 0 }
    reserved := [0, 0, 0, 0, 0, 0] }

/-- A storage image holding `validDescriptor`. -/
def storageGood : StorageImage :=
  { descriptor := some validDescriptor, imageBytes := [] }

/-- A storage image holding no descriptor at all. -/
def storageEmpty : StorageImage :=
  { descriptor := none, imageBytes := [] }

/-- A descriptor that is well-formed (signature and size) but whose
`image_crc` does not match the recomputed checksum under `crc0`. -/
def mismatchDescriptor : AppDescriptor :=
  { signature := getSignatureValue
    app_info := { image_crc := 7, image_size := 1024, vcs_commit := 0
                  major_version := 1, minor_version := 0 }
    reserved := [0, 0, 0, 0, 0, 0] }

/-- A storage image holding `mismatchDescriptor`. -/
def mismatchStorage : StorageImage :=
  { descriptor := some mismatchDescriptor, imageBytes := [] }

/-- A bootloader sitting in `BootDelay` with delay 3000 ms started at
time 100. -/
def delayedBoot : Bootloader :=
  { state := State.BootDelay, boot_delay_msec := 3000
    boot_delay_started_at_st := 100 }

/-- A bootloader in `BootCancelled`. -/
def cancelledBoot : Bootloader :=
  { state := State.BootCancelled, boot_delay_msec := 3000
    boot_delay_started_at_st := 100 }

/-- A bootloader in `NoAppToBoot`. -/
def noAppBoot : Bootloader :=
  { state := State.NoAppToBoot, boot_delay_msec := 3000
    boot_delay_started_at_st := 100 }

/-- A bootloader in `AppUpgradeInProgress`. -/
def upgradingBoot : Bootloader :=
  { state := State.AppUpgradeInProgress, boot_delay_msec := 3000
    boot_delay_started_at_st := 100 }

/-- C4: constructing over a backend whose storage validates leaves the
bootloader in `BootDelay` with the delay timer started at construction
time; over a backend with no descriptor or an invalid one it leaves it in
`NoAppToBoot`. -/
theorem construct_initial_state (crc : List Nat → Nat) (s : StorageImage)
    (D now : Nat) :
    (descriptorValidates crc s = true →
      (Bootloader.construct crc s D now).state = State.BootDelay ∧
      (Bootloader.construct crc s D now).boot_delay_started_at_st = now) ∧
    (descriptorValidates crc s = false →
      (Bootloader.construct crc s D now).state = State.NoAppToBoot) := by
  constructor <;> intro h <;>
    simp [Bootloader.construct, verifyAppAndUpdateState, h]

/-- Witness for C4: a validating storage yields `BootDelay` started at the
construction time, an empty storage yields `NoAppToBoot`. -/
theorem construct_initial_state_witness :
    ((Bootloader.construct crc0 storageGood 3000 17).state = State.BootDelay ∧
      (Bootloader.construct crc0 storageGood 3000 17).boot_delay_started_at_st =
        17) ∧
    (Bootloader.construct crc0 storageEmpty 3000 17).state =
      State.NoAppToBoot :=
  ⟨(construct_initial_state crc0 storageGood 3000 17).1 (by decide),
   (construct_initial_state crc0 storageEmpty 3000 17).2 (by decide)⟩

/-- C3: a descriptor whose signature and size are well-formed but whose
`image_crc` does not match the checksum recomputed over exactly
`image_size` bytes of the image region fails validation, and
`verifyAppAndUpdateState` classifies the situation as no application
present (`NoAppToBoot`), exactly like a signature mismatch. -/
theorem crc_mismatch_is_validity_failure (crc : List Nat → Nat)
    (s : StorageImage) (d : AppDescriptor) (now : Nat) (b : Bootloader)
    (hd : s.descriptor = some d)
    (hv : d.isValid = true)
    (hcrc : crc (s.imageBytes.take d.app_info.image_size) ≠
      d.app_info.image_crc) :
    descriptorValidates crc s = false ∧
    (verifyAppAndUpdateState crc s now b).state = State.NoAppToBoot := by
  have hval : descriptorValidates crc s = false := by
    unfold descriptorValidates
    rw [hd]
    simp [hv, hcrc]
  exact ⟨hval, by simp [verifyAppAndUpdateState, hval]⟩

/-- Witness for C3: `mismatchDescriptor` is well-formed but its stored
checksum 7 differs from the recomputed checksum 0, so validation fails and
the state becomes `NoAppToBoot`. -/
theorem crc_mismatch_is_validity_failure_witness :
    descriptorValidates crc0 mismatchStorage = false ∧
    (verifyAppAndUpdateState crc0 mismatchStorage 17 delayedBoot).state =
      State.NoAppToBoot :=
  crc_mismatch_is_validity_failure crc0 mismatchStorage mismatchDescriptor
    17 delayedBoot rfl (by decide) (by decide)

/-- C6: starting in `BootDelay` with delay `D` started at `t₀`, `getState`
returns `BootDelay` (leaving the state unchanged) for every query strictly
before `t₀ + D`, returns `ReadyToBoot` — having performed the transition —
for every query at or after `t₀ + D`, and from `ReadyToBoot` every later
`getState` call returns `ReadyToBoot` (never reverting). -/
theorem getState_delay_expiry (b : Bootloader) (now : Nat)
    (hb : b.state = State.BootDelay)
    (hm : b.boot_delay_started_at_st ≤ now) :
    (now < b.boot_delay_started_at_st + b.boot_delay_msec →
      b.getState now = (State.BootDelay, b)) ∧
    (b.boot_delay_started_at_st + b.boot_delay_msec ≤ now →
      b.getState now =
        (State.ReadyToBoot, { b with state := State.ReadyToBoot })) ∧
    (∀ (b' : Bootloader) (later : Nat), b'.state = State.ReadyToBoot →
      b'.getState later = (State.ReadyToBoot, b')) := by
  refine ⟨fun h => ?_, fun h => ?_, fun b' later hb' => ?_⟩
  · have hn : ¬(b.state = State.BootDelay ∧
        b.boot_delay_msec ≤ now - b.boot_delay_started_at_st) := by
      rintro ⟨-, h₂⟩; omega
    simp [Bootloader.getState, hn, hb]
    omega
  · have h₂ : b.boot_delay_msec ≤ now - b.boot_delay_started_at_st := by
      omega
    simp [Bootloader.getState, hb, h₂]
  · simp [Bootloader.getState, hb']

/-- Witness for C6: with delay 3000 started at 100, a query at 200 returns
`BootDelay` and a query at 3100 returns `ReadyToBoot` with the state
updated. -/
theorem getState_delay_expiry_witness :
    delayedBoot.getState 200 = (State.BootDelay, delayedBoot) ∧
    delayedBoot.getState 3100 =
      (State.ReadyToBoot, { delayedBoot with state := State.ReadyToBoot }) :=
  ⟨(getState_delay_expiry delayedBoot 200 rfl (by decide)).1 (by decide),
   ((getState_delay_expiry delayedBoot 3100 rfl (by decide)).2).1 (by decide)⟩

/-- C7: `requestBoot` moves the state to `ReadyToBoot` from `BootDelay` or
`BootCancelled`, and is a no-op (the bootloader is unchanged) from
`AppUpgradeInProgress` and from `NoAppToBoot`. -/
theorem requestBoot_transitions (b : Bootloader) :
    ((b.state = State.BootDelay ∨ b.state = State.BootCancelled) →
      b.requestBoot.state = State.ReadyToBoot) ∧
    ((b.state = State.AppUpgradeInProgress ∨ b.state = State.NoAppToBoot) →
      b.requestBoot = b) := by
  refine ⟨fun h => ?_, fun h => ?_⟩
  · unfold Bootloader.requestBoot
    rw [if_pos h]
  · have hn : ¬(b.state = State.BootDelay ∨
        b.state = State.BootCancelled) := by
      rcases h with h | h <;> rw [h] <;> decide
    unfold Bootloader.requestBoot
    rw [if_neg hn]

/-- Witness for C7: from `BootCancelled` the request boots, from
`NoAppToBoot` it is a no-op. -/
theorem requestBoot_transitions_witness :
    cancelledBoot.requestBoot.state = State.ReadyToBoot ∧
    noAppBoot.requestBoot = noAppBoot :=
  ⟨(requestBoot_transitions cancelledBoot).1 (Or.inr rfl),
   (requestBoot_transitions noAppBoot).2 (Or.inr rfl)⟩

/-- C8: `cancelBoot` moves the state to `BootCancelled` exactly when the
current state is `BootDelay`; from any other state the bootloader is left
unchanged (and no error is surfaced — the call returns normally). -/
theorem cancelBoot_transitions (b : Bootloader) :
    (b.state = State.BootDelay →
      b.cancelBoot.state = State.BootCancelled) ∧
    (b.state ≠ State.BootDelay → b.cancelBoot = b) := by
  refine ⟨fun h => ?_, fun h => ?_⟩
  · unfold Bootloader.cancelBoot
    rw [if_pos h]
  · unfold Bootloader.cancelBoot
    rw [if_neg h]

/-- Witness for C8: from `BootDelay` the boot is cancelled, from
`AppUpgradeInProgress` the call is a no-op. -/
theorem cancelBoot_transitions_witness :
    delayedBoot.cancelBoot.state = State.BootCancelled ∧
    upgradingBoot.cancelBoot = upgradingBoot :=
  ⟨(cancelBoot_transitions delayedBoot).1 rfl,
   (cancelBoot_transitions upgradingBoot).2 (by decide)⟩

/-- A backend on which every write reports the full requested size, begin
and end succeed, and the storage left behind validates under `crc0`. -/
def goodBackend : UpgradeBackend :=
  { beginUpgradeRes := 0
    writeRes := fun _ data => (data.length : Int)
    endUpgradeRes := fun _ => 0
    storageAfter := fun _ => storageGood }

/-- A backend whose writes fail (return `-1`) although `beginUpgrade` and
`endUpgrade` report success and the storage left behind would validate. -/
def failingWriteBackend : UpgradeBackend :=
  { beginUpgradeRes := 0
    writeRes := fun _ _ => -1
    endUpgradeRes := fun _ => 0
    storageAfter := fun _ => storageGood }

/-- C1: if any `backend.write` during an upgrade attempt returns fewer
bytes than requested or a negative value (so the sink adapter aborts the
transfer, `writeChunks _ 0 _ = false`), the state after `upgradeApp`
returns is `NoAppToBoot`, for every backend — in particular regardless of
what `endUpgradeRes` reports; and, in general, `upgradeApp` only ever
lands on `BootDelay`/`ReadyToBoot` when the descriptor has just been
re-validated as valid on the finalized storage. -/
theorem upgradeApp_write_failure_atomic :
    (∀ (crc : List Nat → Nat) (be : UpgradeBackend)
        (chunks : List (List Nat)) (downloaderRes : Int) (now : Nat)
        (b : Bootloader),
      b.state ≠ State.AppUpgradeInProgress →
      0 ≤ be.beginUpgradeRes →
      writeChunks be 0 chunks = false →
      (Bootloader.upgradeApp crc be chunks downloaderRes now b).2.state =
        State.NoAppToBoot) ∧
    (∀ (crc : List Nat → Nat) (be : UpgradeBackend)
        (chunks : List (List Nat)) (downloaderRes : Int) (now : Nat)
        (b : Bootloader),
      ((Bootloader.upgradeApp crc be chunks downloaderRes now b).2.state =
          State.BootDelay ∨
        (Bootloader.upgradeApp crc be chunks downloaderRes now b).2.state =
          State.ReadyToBoot) →
      descriptorValidates crc (be.storageAfter true) = true) := by
  constructor
  · intro crc be chunks downloaderRes now b hpre hbegin hw
    unfold Bootloader.upgradeApp
    rw [if_neg hpre, if_neg (by omega : ¬be.beginUpgradeRes < 0)]
    simp [upgradeSuccess_eq, hw]
  · intro crc be chunks downloaderRes now b h
    unfold Bootloader.upgradeApp at h
    by_cases hpre : b.state = State.AppUpgradeInProgress
    · rw [if_pos hpre] at h
      simp [hpre] at h
    · rw [if_neg hpre] at h
      by_cases hbeg : be.beginUpgradeRes < 0
      · rw [if_pos hbeg] at h
        simp at h
      · rw [if_neg hbeg] at h
        simp only at h
        by_cases hsv : (upgradeSuccess be chunks downloaderRes &&
            descriptorValidates crc
              (be.storageAfter (upgradeSuccess be chunks downloaderRes))) =
            true
        · rw [Bool.and_eq_true] at hsv
          obtain ⟨h₁, h₂⟩ := hsv
          rwa [h₁] at h₂
        · rw [if_neg hsv] at h
          simp at h

/-- Witness for C1: a downloader chunk hits a write returning `-1`; the
final state is `NoAppToBoot` even though `endUpgrade` reports success and
the leftover storage would validate. -/
theorem upgradeApp_write_failure_atomic_witness :
    (Bootloader.upgradeApp crc0 failingWriteBackend [[1, 2, 3]] 0 42
        delayedBoot).2.state = State.NoAppToBoot :=
  upgradeApp_write_failure_atomic.1 crc0 failingWriteBackend [[1, 2, 3]] 0 42
    delayedBoot (by decide) (by decide) (by decide)

/-- Every branch of `upgradeApp` returns either zero or a negative value;
no branch returns a positive one. -/
theorem upgradeApp_ret_cases (crc : List Nat → Nat) (be : UpgradeBackend)
    (chunks : List (List Nat)) (downloaderRes : Int) (now : Nat)
    (b : Bootloader)
    (hpre : b.state ≠ State.AppUpgradeInProgress) :
    (Bootloader.upgradeApp crc be chunks downloaderRes now b).1 = 0 ∨
    (Bootloader.upgradeApp crc be chunks downloaderRes now b).1 < 0 := by
  unfold Bootloader.upgradeApp
  rw [if_neg hpre]
  by_cases hbeg : be.beginUpgradeRes < 0
  · rw [if_pos hbeg]
    exact Or.inr hbeg
  · rw [if_neg hbeg]
    dsimp only
    split_ifs <;> omega

/-- C5: `upgradeApp` returns zero iff `beginUpgrade` succeeded, every
write wrote the full requested number of bytes, the downloader returned 0,
`endUpgrade` (with success) returned non-negative, and the descriptor
re-validated after finalization is valid; in every other case — whenever
any of those conditions fails — the return value is strictly negative. -/
theorem upgradeApp_zero_iff (crc : List Nat → Nat) (be : UpgradeBackend)
    (chunks : List (List Nat)) (downloaderRes : Int) (now : Nat)
    (b : Bootloader)
    (hpre : b.state ≠ State.AppUpgradeInProgress) :
    ((Bootloader.upgradeApp crc be chunks downloaderRes now b).1 = 0 ↔
      (0 ≤ be.beginUpgradeRes ∧ writeChunks be 0 chunks = true ∧
        downloaderRes = 0 ∧ 0 ≤ be.endUpgradeRes true ∧
        descriptorValidates crc (be.storageAfter true) = true)) ∧
    (¬(0 ≤ be.beginUpgradeRes ∧ writeChunks be 0 chunks = true ∧
        downloaderRes = 0 ∧ 0 ≤ be.endUpgradeRes true ∧
        descriptorValidates crc (be.storageAfter true) = true) →
      (Bootloader.upgradeApp crc be chunks downloaderRes now b).1 < 0) := by
  have hiff : (Bootloader.upgradeApp crc be chunks downloaderRes now b).1 =
      0 ↔
      (0 ≤ be.beginUpgradeRes ∧ writeChunks be 0 chunks = true ∧
        downloaderRes = 0 ∧ 0 ≤ be.endUpgradeRes true ∧
        descriptorValidates crc (be.storageAfter true) = true) := by
    unfold Bootloader.upgradeApp
    rw [if_neg hpre]
    by_cases hbeg : be.beginUpgradeRes < 0
    · rw [if_pos hbeg]
      refine ⟨fun h => absurd h (by omega), fun h => absurd h.1 (by omega)⟩
    · rw [if_neg hbeg]
      have hbeg' : 0 ≤ be.beginUpgradeRes := by omega
      by_cases hw : writeChunks be 0 chunks = true
      · by_cases hd : downloaderRes = 0
        · have hsucc : upgradeSuccess be chunks downloaderRes = true := by
            rw [upgradeSuccess_eq]
            simp [hw, hd]
          simp only [hsucc]
          by_cases hend : be.endUpgradeRes true < 0
          · simp [hend, hbeg', hw, hd]
            omega
          · by_cases hv :
                descriptorValidates crc (be.storageAfter true) = true
            · simp [hend, hv, hbeg', hw, hd]
              omega
            · simp [hend, hv, hbeg', hw, hd]
        · have hsucc : upgradeSuccess be chunks downloaderRes = false := by
            rw [upgradeSuccess_eq]
            simp [hd]
          simp [hsucc, hd]
      · have hsucc : upgradeSuccess be chunks downloaderRes = false := by
          rw [upgradeSuccess_eq]
          simp [Bool.not_eq_true] at hw
          simp [hw]
        simp [hsucc, hw]
  refine ⟨hiff, fun h => ?_⟩
  rcases upgradeApp_ret_cases crc be chunks downloaderRes now b hpre with
    h₀ | hneg
  · exact absurd (hiff.mp h₀) h
  · exact hneg

/-- Witness for C5: on `goodBackend` with two fully written chunks, a
downloader result of 0, a successful finalization and a validating
descriptor, `upgradeApp` returns 0; on `failingWriteBackend`, where the
write fails, it returns a strictly negative value. -/
theorem upgradeApp_zero_iff_witness :
    (Bootloader.upgradeApp crc0 goodBackend [[1, 2], [3]] 0 42
        noAppBoot).1 = 0 ∧
    (Bootloader.upgradeApp crc0 failingWriteBackend [[1, 2, 3]] 0 42
        noAppBoot).1 < 0 :=
  ⟨((upgradeApp_zero_iff crc0 goodBackend [[1, 2], [3]] 0 42 noAppBoot
        (by decide)).1).mpr
      ⟨by decide, by decide, rfl, by decide, by decide⟩,
   (upgradeApp_zero_iff crc0 failingWriteBackend [[1, 2, 3]] 0 42 noAppBoot
       (by decide)).2
     (by decide)⟩

end bootloader
